import Mathlib

/-!
Verification development for the VFTracker bus-tracking server (`src/app.py`).

The shallow embedding below translates the cache-refresh pipeline of the
source into pure Lean functions:

* the upstream OASA telematics client becomes a `Provider` record of
  fallible calls (`Except` models a raised exception, `Option` models a
  `None` return);
* `get_stops` embeds `app.py` lines 57-76;
* `get_bus_data` (with its helpers `processRoute`, `processArrival`,
  `processArrivals`, `processStop`, `processStops`) embeds lines 78-132;
* `update_cache_cycle` embeds one iteration of the `update_cache` loop body
  (lines 138-160), parametrised by the outcome of the pipeline call so the
  `except` branch is reachable; `update_cache_once` instantiates it with the
  actual pipeline of lines 145-146;
* `write_stops` / `write_buses` / `write_last_update` / `publishAfter` model
  the three separate cache-field assignments of lines 149-151 as individual
  atomic steps, so that interleavings with a concurrent reader can be
  examined;
* `get_stops_api` / `get_buses_api` embed the reads performed by the HTTP
  handlers at lines 205 and 214-217.

Machine floats of the source are modelled as `Rat`; Python's `float(...)`
conversion of a provider string is modelled by the decimal parser `pyFloat`
(returning `none` where `float` would raise `ValueError`).
-/

/-- A raw stop record returned by `getClosestStops` (fields used by the
source: `StopID`, `StopDescr`). -/
structure StopRec where
  StopID : String
  StopDescr : String
deriving DecidableEq, Repr

/-- A raw arrival record returned by `stop.arrivals()` (fields used:
`route_code`, `btime2`). -/
structure Arrival where
  route_code : String
  btime2 : String
deriving DecidableEq, Repr

/-- A raw route record returned by `webRoutesForStop` (field used for the
match: `RouteCode`; `RouteDescr` stands for the remaining descriptive
fields carried along by `route_info.copy()`). -/
structure RouteInfo where
  RouteCode : String
  RouteDescr : String
deriving DecidableEq, Repr

/-- A raw vehicle-position record returned by `route.bus_location()`
(fields used: `CS_LAT`, `CS_LNG`, `VEH_NO`). -/
structure VehPos where
  CS_LAT : String
  CS_LNG : String
  VEH_NO : String
deriving DecidableEq, Repr

/-- The joined record appended to `all_buses` at line 120: a copy of the
matched route record enriched with the arrival, stop and vehicle fields
set at lines 104-119. -/
structure Bus where
  RouteCode : String
  RouteDescr : String
  time_left : String
  stop_name : String
  stop_id : String
  route_code : String
  lat : Rat
  lng : Rat
  vehicle_id : String
  last_update : String
deriving DecidableEq, Repr

/-- The upstream OASA telematics client. Each call may raise
(`Except.error`); `arrivals` and `bus_location` may also return `None`
(`Option.none`), which the source checks at lines 92 and 115. -/
structure Provider where
  getClosestStops : Rat → Rat → Except String (List StopRec)
  arrivals : String → Except String (Option (List Arrival))
  webRoutesForStop : String → Except String (List RouteInfo)
  bus_location : String → Except String (Option (List VehPos))

/-- The `stats` sub-dictionary of the cache (lines 45-50). -/
structure Stats where
  total_updates : Nat
  successful_updates : Nat
  failed_updates : Nat
  uptime : Nat
deriving DecidableEq, Repr

/-- The shared `cache` dictionary (lines 41-51). `last_update` is the
`time.time()` timestamp, modelled as a natural number. -/
structure Cache where
  stops : List StopRec
  buses : List Bus
  last_update : Nat
  stats : Stats
deriving DecidableEq, Repr

/-- The initial cache value of lines 41-51. -/
def cache0 : Cache :=
  { stops := [], buses := [], last_update := 0
    stats := { total_updates := 0, successful_updates := 0, failed_updates := 0, uptime := 0 } }

/-- Numeric value of a decimal digit character. -/
def digitVal (c : Char) : Nat := c.toNat - 48

/-- Whether every character of the list is a decimal digit. -/
def isAllDigits (cs : List Char) : Bool := cs.all (fun c => c.isDigit)

/-- The natural number denoted by a list of decimal digits. -/
def digitsToNat (cs : List Char) : Nat :=
  cs.foldl (fun n c => n * 10 + digitVal c) 0

/-- Python's `float(s)` on the plain decimal strings the provider sends
(optional sign, digits, optional fractional part). Returns `none` where
`float` would raise `ValueError`; that exception is caught by the
per-route handler at lines 121-123 of the source. -/
def pyFloat (s : String) : Option Rat :=
  let cs := s.toList
  let signed : Bool × List Char :=
    match cs with
    | '-' :: rest => (true, rest)
    | '+' :: rest => (false, rest)
    | _ => (false, cs)
  let ip := signed.2.takeWhile (fun c => c ≠ '.')
  let rest := signed.2.dropWhile (fun c => c ≠ '.')
  let mag : Option Rat :=
    match rest with
    | [] =>
        if !ip.isEmpty && isAllDigits ip then some ((digitsToNat ip : Nat) : Rat) else none
    | '.' :: fp =>
        if (!ip.isEmpty || !fp.isEmpty) && isAllDigits ip && isAllDigits fp then
          some (((digitsToNat ip : Nat) : Rat)
            + ((digitsToNat fp : Nat) : Rat) / ((10 ^ fp.length : Nat) : Rat))
        else none
    | _ => none
  match mag with
  | none => none
  | some v => some (if signed.1 then -v else v)

/-- `get_stops` (lines 57-76): returns the provider's closest-stops answer,
or the empty list when the client is uninitialised (`oasa is None`,
lines 59-61) or the call raises (lines 74-76). A total function: the
source catches every exception at this boundary. -/
def get_stops (p : Provider) (oasaInit : Bool) (lat lng : Rat) : List StopRec :=
  if oasaInit then
    match p.getClosestStops lat lng with
    | Except.ok stops => stops
    | Except.error _ => []
  else []

/-- Accumulation pattern shared by the three nested `for` loops of
`get_bus_data`: run `f` on each element in order, concatenating the
emitted sightings and summing the error counts (the source threads the
shared `all_buses` list and `errors` counter through the loops). -/
def accumJoin {α β : Type} (f : α → List β × Nat) (l : List α) : List β × Nat :=
  l.foldl (fun acc a => (acc.1 ++ (f a).1, acc.2 + (f a).2)) ([], 0)

/-- The sighting built at lines 104-119 for a matched route `r`, arrival
`a`, stop `si` and first vehicle position `v` with parsed coordinates
`la`, `ln`; `nowStr` is the `datetime.now()` time-of-day string. -/
def mkBus (r : RouteInfo) (a : Arrival) (si : StopRec) (v : VehPos)
    (la ln : Rat) (nowStr : String) : Bus :=
  { RouteCode := r.RouteCode, RouteDescr := r.RouteDescr
    time_left := a.btime2, stop_name := si.StopDescr, stop_id := si.StopID
    route_code := a.route_code, lat := la, lng := ln
    vehicle_id := v.VEH_NO, last_update := nowStr }

/-- Body of the `for route_info in routes` loop (lines 101-123): on a route
whose code equals the arrival's code, fetch the route's vehicle location
inside the inner `try` (lines 111-123); emit one sighting from the first
entry of a non-`None`, non-empty position list whose coordinates parse,
count one error if the location fetch or a `float` conversion raises.
There is no `break`: every matching route is processed. -/
def processRoute (p : Provider) (a : Arrival) (si : StopRec) (nowStr : String)
    (r : RouteInfo) : List Bus × Nat :=
  if r.RouteCode == a.route_code then
    match p.bus_location a.route_code with
    | Except.error _ => ([], 1)
    | Except.ok none => ([], 0)
    | Except.ok (some []) => ([], 0)
    | Except.ok (some (v :: _)) =>
        match pyFloat v.CS_LAT, pyFloat v.CS_LNG with
        | some la, some ln => ([mkBus r a si v la ln nowStr], 0)
        | some _, none => ([], 1)
        | none, _ => ([], 1)
  else ([], 0)

/-- Body of the `for arrival in arrivals` loop (lines 97-126): fetch the
stop's route listing inside the per-arrival `try`; one error if that
fetch raises, otherwise scan every route in listing order. -/
def processArrival (p : Provider) (si : StopRec) (stopcode : String)
    (nowStr : String) (a : Arrival) : List Bus × Nat :=
  match p.webRoutesForStop stopcode with
  | Except.error _ => ([], 1)
  | Except.ok routes => accumJoin (processRoute p a si nowStr) routes

/-- The scan over a stop's arrival list (the `for arrival in arrivals` loop
as a whole); `stop.stopcode` is `str(stop_info['StopID'])` (line 89). -/
def processArrivals (p : Provider) (si : StopRec) (nowStr : String)
    (arrs : List Arrival) : List Bus × Nat :=
  accumJoin (processArrival p si si.StopID nowStr) arrs

/-- Body of the `for stop_info in stops` loop (lines 88-129): fetch the
stop's arrivals inside the per-stop `try`; one error if that raises,
no sightings and no error when arrivals is `None` (lines 92-94). -/
def processStop (p : Provider) (nowStr : String) (si : StopRec) : List Bus × Nat :=
  match p.arrivals si.StopID with
  | Except.error _ => ([], 1)
  | Except.ok none => ([], 0)
  | Except.ok (some arrs) => processArrivals p si nowStr arrs

/-- The scan over all discovered stops. -/
def processStops (p : Provider) (nowStr : String) (stops : List StopRec) :
    List Bus × Nat :=
  accumJoin (processStop p nowStr) stops

/-- `get_bus_data` (lines 78-132). Returns the `all_buses` list together
with the internal `errors` counter (the source logs the counter at line
131 rather than returning it). When the client is uninitialised it
returns the empty list at once (lines 80-82). -/
def get_bus_data (p : Provider) (oasaInit : Bool) (nowStr : String)
    (stops : List StopRec) : List Bus × Nat :=
  if oasaInit then processStops p nowStr stops else ([], 0)

/-- `DEFAULT_LOCATION['lat']` (line 35). -/
def DEFAULT_LAT : Rat := (3803700447552456 : Rat) / (100000000000000 : Rat)

/-- `DEFAULT_LOCATION['lng']` (line 36). -/
def DEFAULT_LNG : Rat := (2371519323560343 : Rat) / (100000000000000 : Rat)

/-- The discovery+join pipeline of one refresh cycle (lines 145-146).
Total: both `get_stops` and `get_bus_data` catch all their exceptions. -/
def run_pipeline (p : Provider) (oasaInit : Bool) (nowStr : String) :
    List StopRec × List Bus :=
  let stops := get_stops p oasaInit DEFAULT_LAT DEFAULT_LNG
  (stops, (get_bus_data p oasaInit nowStr stops).1)

/-- One iteration of the `while True` body of `update_cache`
(lines 138-160), parametrised by the outcome of the pipeline call:
`total_updates` is incremented first (line 142, inside the `try`); on a
normal pipeline return the cache fields are reassigned and
`successful_updates` and `uptime` updated (lines 149-153); on an
uncaught pipeline exception control reaches the `except` block, which
only increments `failed_updates` (line 160). `now` is the `time.time()`
value of line 151 and `up` the uptime of line 153. -/
def update_cache_cycle (pipe : Except String (List StopRec × List Bus))
    (now up : Nat) (c : Cache) : Cache :=
  let stTotal : Stats := { c.stats with total_updates := c.stats.total_updates + 1 }
  match pipe with
  | Except.ok (stops, buses) =>
      { stops := stops, buses := buses, last_update := now
        stats := { stTotal with
                    successful_updates := stTotal.successful_updates + 1
                    uptime := up } }
  | Except.error _ =>
      { c with stats := { stTotal with failed_updates := stTotal.failed_updates + 1 } }

/-- One refresh cycle with the actual pipeline of lines 145-146, which
never raises (every provider failure is absorbed inside `get_stops` and
`get_bus_data`), so the cycle always takes the success branch. -/
def update_cache_once (p : Provider) (oasaInit : Bool) (nowStr : String)
    (now up : Nat) (c : Cache) : Cache :=
  update_cache_cycle (Except.ok (run_pipeline p oasaInit nowStr)) now up c

/-- The assignment `cache['stops'] = stops` (line 149) as one atomic step. -/
def write_stops (c : Cache) (s : List StopRec) : Cache := { c with stops := s }

/-- The assignment `cache['buses'] = buses` (line 150) as one atomic step. -/
def write_buses (c : Cache) (b : List Bus) : Cache := { c with buses := b }

/-- The assignment `cache['last_update'] = time.time()` (line 151) as one
atomic step. -/
def write_last_update (c : Cache) (t : Nat) : Cache := { c with last_update := t }

/-- The cache state visible to a concurrent reader after the first `k` of
the three data-field assignments of lines 149-151 have executed. The
source performs them as separate statements with no lock, so every one
of these intermediate states is observable. -/
def publishAfter (c : Cache) (s : List StopRec) (b : List Bus) (t : Nat) :
    Nat → Cache
  | 0 => c
  | 1 => write_stops c s
  | 2 => write_buses (write_stops c s) b
  | _ + 3 => write_last_update (write_buses (write_stops c s) b) t

/-- The read performed by the `/api/stops` handler (line 205). -/
def get_stops_api (c : Cache) : List StopRec := c.stops

/-- The read performed by the `/api/buses` handler (lines 214-217). -/
def get_buses_api (c : Cache) : List Bus × Nat := (c.buses, c.last_update)

def stop101 : StopRec := { StopID := "101", StopDescr := "Main St" }

def arrA10 : Arrival := { route_code := "A10", btime2 := "5" }

def routeA10 : RouteInfo := { RouteCode := "A10", RouteDescr := "Route A10" }

def vehV1 : VehPos := { CS_LAT := "38.01", CS_LNG := "23.70", VEH_NO := "V1" }

def providerC3 : Provider :=
  { getClosestStops := fun _ _ => Except.ok [stop101]
    arrivals := fun sid => if sid == "101" then Except.ok (some [arrA10]) else Except.ok none
    webRoutesForStop := fun sid => if sid == "101" then Except.ok [routeA10] else Except.ok []
    bus_location := fun rc => if rc == "A10" then Except.ok (some [vehV1]) else Except.ok none }


def providerC4 : Provider :=
  { getClosestStops := fun _ _ => Except.ok [stop101]
    arrivals := fun sid => if sid == "101" then Except.ok (some [arrA10]) else Except.ok none
    webRoutesForStop := fun sid =>
      if sid == "101" then
        Except.ok [{ RouteCode := "A10", RouteDescr := "first" },
                   { RouteCode := "A10", RouteDescr := "second" }]
      else Except.ok []
    bus_location := fun rc => if rc == "A10" then Except.ok (some [vehV1]) else Except.ok none }

def providerC5 : Provider :=
  { providerC3 with bus_location := fun _ => Except.error "network error" }

def providerFailDisc : Provider :=
  { getClosestStops := fun _ _ => Except.error "network error"
    arrivals := fun _ => Except.ok none
    webRoutesForStop := fun _ => Except.ok []
    bus_location := fun _ => Except.ok none }

def providerEmptyDisc : Provider :=
  { getClosestStops := fun _ _ => Except.ok []
    arrivals := fun _ => Except.ok none
    webRoutesForStop := fun _ => Except.ok []
    bus_location := fun _ => Except.ok none }

def oldBus : Bus :=
  { RouteCode := "B20", RouteDescr := "old route", time_left := "9", stop_name := "Old stop"
    stop_id := "99", route_code := "B20", lat := 38, lng := 23, vehicle_id := "V9"
    last_update := "11:00:00" }

def cPre : Cache :=
  { stops := [], buses := [oldBus], last_update := 100
    stats := { total_updates := 4, successful_updates := 4, failed_updates := 0, uptime := 50 } }

def cPrev : Cache :=
  { stops := [{ StopID := "99", StopDescr := "Old stop" }], buses := [oldBus], last_update := 100
    stats := { total_updates := 3, successful_updates := 3, failed_updates := 0, uptime := 40 } }

theorem accumJoin_shift {α β : Type} (f : α → List β × Nat) (l : List α) :
    ∀ acc : List β × Nat,
      List.foldl (fun acc a => (acc.1 ++ (f a).1, acc.2 + (f a).2)) acc l
        = (acc.1 ++ (accumJoin f l).1, acc.2 + (accumJoin f l).2) := by
  induction l with
  | nil => intro acc; simp [accumJoin]
  | cons x xs ih =>
      intro acc
      rw [List.foldl_cons, ih]
      conv_rhs => rw [accumJoin, List.foldl_cons, ih]
      simp [List.append_assoc, Nat.add_assoc]

theorem accumJoin_cons {α β : Type} (f : α → List β × Nat) (x : α) (xs : List α) :
    accumJoin f (x :: xs)
      = ((f x).1 ++ (accumJoin f xs).1, (f x).2 + (accumJoin f xs).2) := by
  rw [accumJoin, List.foldl_cons, accumJoin_shift]
  simp

theorem accumJoin_append {α β : Type} (f : α → List β × Nat) (xs ys : List α) :
    accumJoin f (xs ++ ys)
      = ((accumJoin f xs).1 ++ (accumJoin f ys).1,
         (accumJoin f xs).2 + (accumJoin f ys).2) := by
  induction xs with
  | nil => simp [accumJoin]
  | cons x xs ih =>
      rw [List.cons_append, accumJoin_cons, ih, accumJoin_cons]
      simp [List.append_assoc, Nat.add_assoc]

/-- Coherence of the two views of a successful publish: running all three
field assignments of lines 149-151 yields the same data fields as the
success branch of `update_cache_cycle`. -/
theorem publishAfter_three_eq_cycle (c : Cache) (s : List StopRec) (b : List Bus)
    (t up : Nat) :
    (publishAfter c s b t 3).stops = (update_cache_cycle (Except.ok (s, b)) t up c).stops ∧
    (publishAfter c s b t 3).buses = (update_cache_cycle (Except.ok (s, b)) t up c).buses ∧
    (publishAfter c s b t 3).last_update
      = (update_cache_cycle (Except.ok (s, b)) t up c).last_update := by
  simp [publishAfter, write_stops, write_buses, write_last_update, update_cache_cycle]

/-- C1: the claim says a concurrent reader can never observe a torn cache
state because stops/buses/last_update are published as one atomic unit.
The source publishes them as three separate unsynchronized assignments
(lines 149-151), so the intermediate state after only the first
assignment is observable: a reader there sees the NEW stops paired with
the OLD buses, a state that is neither the pre-publish nor the
post-publish snapshot. Evaluated at a concrete publish over `cPre`. -/
theorem publish_interleaving_torn_read :
    get_stops_api (publishAfter cPre [stop101] [] 200 1) = [stop101] ∧
    (get_buses_api (publishAfter cPre [stop101] [] 200 1)).1 = [oldBus] ∧
    get_stops_api cPre ≠ [stop101] ∧
    (get_buses_api (publishAfter cPre [stop101] [] 200 3)).1 ≠ [oldBus] ∧
    publishAfter cPre [stop101] [] 200 1 ≠ cPre ∧
    publishAfter cPre [stop101] [] 200 1 ≠ publishAfter cPre [stop101] [] 200 3 := by
  refine ⟨rfl, rfl, ?_, ?_, ?_, ?_⟩
  · simp [get_stops_api, cPre, stop101]
  · simp [get_buses_api, publishAfter, write_stops, write_buses, write_last_update, cPre, oldBus]
  · intro h
    have := congrArg Cache.stops h
    simp [publishAfter, write_stops, cPre, stop101] at this
  · intro h
    have := congrArg Cache.buses h
    simp [publishAfter, write_stops, write_buses, write_last_update, cPre, oldBus] at this

/-- C2: after any completed refresh cycle, each cycle increments
`total_updates` exactly once and then exactly one of
`successful_updates` or `failed_updates`, so
`successful_updates + failed_updates = total_updates` is preserved. -/
theorem update_cache_cycle_stats_invariant
    (pipe : Except String (List StopRec × List Bus)) (now up : Nat) (c : Cache)
    (h : c.stats.successful_updates + c.stats.failed_updates = c.stats.total_updates) :
    (update_cache_cycle pipe now up c).stats.total_updates = c.stats.total_updates + 1 ∧
    (((update_cache_cycle pipe now up c).stats.successful_updates
          = c.stats.successful_updates + 1 ∧
      (update_cache_cycle pipe now up c).stats.failed_updates
          = c.stats.failed_updates) ∨
     ((update_cache_cycle pipe now up c).stats.successful_updates
          = c.stats.successful_updates ∧
      (update_cache_cycle pipe now up c).stats.failed_updates
          = c.stats.failed_updates + 1)) ∧
    (update_cache_cycle pipe now up c).stats.successful_updates
        + (update_cache_cycle pipe now up c).stats.failed_updates
        = (update_cache_cycle pipe now up c).stats.total_updates := by
  cases pipe with
  | error e => simp [update_cache_cycle]; omega
  | ok sb => cases sb with
    | mk stops buses => simp [update_cache_cycle]; omega

/-- C2 witness: the invariant theorem applied to the initial cache and a
failing pipeline outcome. -/
theorem update_cache_cycle_stats_invariant_witness :
    (cache0.stats.successful_updates + cache0.stats.failed_updates
        = cache0.stats.total_updates) ∧
    ((update_cache_cycle (Except.error "boom") 7 9 cache0).stats.total_updates
        = cache0.stats.total_updates + 1 ∧
     (((update_cache_cycle (Except.error "boom") 7 9 cache0).stats.successful_updates
          = cache0.stats.successful_updates + 1 ∧
       (update_cache_cycle (Except.error "boom") 7 9 cache0).stats.failed_updates
          = cache0.stats.failed_updates) ∨
      ((update_cache_cycle (Except.error "boom") 7 9 cache0).stats.successful_updates
          = cache0.stats.successful_updates ∧
       (update_cache_cycle (Except.error "boom") 7 9 cache0).stats.failed_updates
          = cache0.stats.failed_updates + 1)) ∧
     (update_cache_cycle (Except.error "boom") 7 9 cache0).stats.successful_updates
        + (update_cache_cycle (Except.error "boom") 7 9 cache0).stats.failed_updates
        = (update_cache_cycle (Except.error "boom") 7 9 cache0).stats.total_updates) :=
  ⟨by decide, update_cache_cycle_stats_invariant (Except.error "boom") 7 9 cache0 (by decide)⟩

/-- C3: on the scenario where discovery yields stop "101" (Main St), its
single arrival is route "A10" in "5" minutes, the stop's listing holds
route "A10", and the vehicle position for "A10" is
(38.01, 23.70, "V1"), the join emits exactly one sighting with the
claimed fields and zero errors. -/
theorem join_single_scenario :
    get_bus_data providerC3 true "12:00:00" [stop101]
      = ([{ RouteCode := "A10", RouteDescr := "Route A10", time_left := "5"
            stop_name := "Main St", stop_id := "101", route_code := "A10"
            lat := (3801 : Rat) / 100, lng := (237 : Rat) / 10
            vehicle_id := "V1", last_update := "12:00:00" }], 0) := by
  simp [get_bus_data, processStops, processStop, processArrivals, processArrival,
        processRoute, accumJoin, providerC3, stop101, arrA10, routeA10, vehV1, mkBus,
        pyFloat, digitsToNat, digitVal, isAllDigits]
  norm_num

/-- C6: when the pipeline call of a refresh cycle raises an uncaught
exception, the `except` branch leaves stops, buses and last_update
exactly as they were and increments `failed_updates` by one. -/
theorem cycle_exception_preserves_snapshot (msg : String) (now up : Nat) (c : Cache) :
    (update_cache_cycle (Except.error msg) now up c).stops = c.stops ∧
    (update_cache_cycle (Except.error msg) now up c).buses = c.buses ∧
    (update_cache_cycle (Except.error msg) now up c).last_update = c.last_update ∧
    (update_cache_cycle (Except.error msg) now up c).stats.failed_updates
        = c.stats.failed_updates + 1 ∧
    (update_cache_cycle (Except.error msg) now up c).stats.successful_updates
        = c.stats.successful_updates := by
  simp [update_cache_cycle]

/-- C8: whenever the provider call raises, and likewise when the client is
uninitialised, `get_stops` returns the empty list; being a total Lean
function it cannot raise past its boundary. -/
theorem get_stops_provider_failure_returns_empty
    (p : Provider) (lat lng : Rat) (msg : String)
    (h : p.getClosestStops lat lng = Except.error msg) :
    get_stops p true lat lng = [] ∧ get_stops p false lat lng = [] := by
  simp [get_stops, h]

/-- C8 witness: the discovery-failure theorem applied to a provider whose
closest-stops call raises. -/
theorem get_stops_provider_failure_returns_empty_witness :
    (providerFailDisc.getClosestStops 38 23 = Except.error "network error") ∧
    (get_stops providerFailDisc true 38 23 = [] ∧ get_stops providerFailDisc false 38 23 = []) :=
  ⟨rfl, get_stops_provider_failure_returns_empty providerFailDisc 38 23 "network error" rfl⟩

/-- C10: when the provider client is uninitialised (`oasa is None`),
`get_bus_data` returns the empty list with zero errors for every input
stop list, without reaching the per-stop loop. -/
theorem get_bus_data_uninitialized_returns_empty
    (p : Provider) (ns : String) (stops : List StopRec) :
    get_bus_data p false ns stops = ([], 0) := by
  simp [get_bus_data]

/-- C4 counterexample: the route loop (lines 101-123) has no `break`, so
with a duplicate route code in the stop's listing the single arrival
produces TWO sightings — one per matching listing entry, the second
matching route's descriptive fields included — refuting both "only the
first matching route is kept" and "at most one BusSighting per
arrival". -/
theorem join_duplicate_route_codes_two_sightings :
    ((get_bus_data providerC4 true "12:00:00" [stop101]).1.length = 2) ∧
    ((get_bus_data providerC4 true "12:00:00" [stop101]).1.map (fun b => b.RouteDescr)
      = ["first", "second"]) := by
  simp [get_bus_data, processStops, processStop, processArrivals, processArrival,
        processRoute, accumJoin, providerC4, stop101, arrA10, vehV1, mkBus,
        pyFloat, digitsToNat, digitVal, isAllDigits]

/-- C4 (amended): for every arrival, EVERY route of the stop's listing whose
code equals the arrival's route code — not only the first — yields one
BusSighting, in listing iteration order, each built from the first entry
of the non-empty vehicle-position list; with duplicate route codes,
several sightings are emitted for the one arrival. -/
theorem join_emits_one_sighting_per_matching_route
    (p : Provider) (si : StopRec) (sc nowStr : String) (a : Arrival)
    (routes : List RouteInfo) (v : VehPos) (vs : List VehPos) (la ln : Rat)
    (hr : p.webRoutesForStop sc = Except.ok routes)
    (hv : p.bus_location a.route_code = Except.ok (some (v :: vs)))
    (hla : pyFloat v.CS_LAT = some la)
    (hln : pyFloat v.CS_LNG = some ln) :
    (processArrival p si sc nowStr a).1
      = (routes.filter (fun r => r.RouteCode == a.route_code)).map
          (fun r => mkBus r a si v la ln nowStr) := by
  simp only [processArrival, hr]
  clear hr
  induction routes with
  | nil => simp [accumJoin]
  | cons r rs ih =>
      simp only [accumJoin_cons]
      cases hEq : (r.RouteCode == a.route_code) with
      | false => simpa [processRoute, hEq] using ih
      | true => simp [processRoute, hEq, hv, hla, hln, List.filter_cons, ih]

/-- C4 witness: the amended per-matching-route theorem applied to the
duplicate-route-code provider: both listing entries for code "A10" are
kept. -/
theorem join_emits_one_sighting_per_matching_route_witness :
    (providerC4.webRoutesForStop "101"
        = Except.ok [{ RouteCode := "A10", RouteDescr := "first" },
                     { RouteCode := "A10", RouteDescr := "second" }]) ∧
    (providerC4.bus_location arrA10.route_code = Except.ok (some (vehV1 :: []))) ∧
    (pyFloat vehV1.CS_LAT = some ((3801 : Rat) / 100)) ∧
    (pyFloat vehV1.CS_LNG = some ((237 : Rat) / 10)) ∧
    ((processArrival providerC4 stop101 "101" "12:00:00" arrA10).1
      = ([{ RouteCode := "A10", RouteDescr := "first" },
          { RouteCode := "A10", RouteDescr := "second" }].filter
            (fun r => r.RouteCode == arrA10.route_code)).map
          (fun r => mkBus r arrA10 stop101 vehV1 ((3801 : Rat) / 100) ((237 : Rat) / 10)
              "12:00:00")) := by
  refine ⟨?h1, ?h2, ?h3, ?h4, ?_⟩
  case h1 => simp [providerC4]
  case h2 => simp [providerC4, arrA10]
  case h3 => simp [vehV1, pyFloat, digitsToNat, digitVal, isAllDigits]; norm_num
  case h4 => simp [vehV1, pyFloat, digitsToNat, digitVal, isAllDigits]; norm_num
  exact join_emits_one_sighting_per_matching_route providerC4 stop101 "101" "12:00:00"
    arrA10 [{ RouteCode := "A10", RouteDescr := "first" },
            { RouteCode := "A10", RouteDescr := "second" }] vehV1 [] ((3801 : Rat) / 100)
    ((237 : Rat) / 10)
    (by simp [providerC4])
    (by simp [providerC4, arrA10])
    (by simp [vehV1, pyFloat, digitsToNat, digitVal, isAllDigits]; norm_num)
    (by simp [vehV1, pyFloat, digitsToNat, digitVal, isAllDigits]; norm_num)

/-- C5: the join isolates a vehicle-location provider failure to the one
affected arrival: processing decomposes stop-wise and arrival-wise
(sightings concatenate, error counts add, so the other stops and the
other arrivals of the same stop contribute exactly what they would
alone), and on the single-stop single-arrival scenario whose location
call raises, the join returns no sightings with error count exactly 1
while the cycle still takes the success path. -/
theorem join_isolates_per_arrival_location_failure :
    (∀ (p : Provider) (ns : String) (xs ys : List StopRec),
        processStops p ns (xs ++ ys)
          = ((processStops p ns xs).1 ++ (processStops p ns ys).1,
             (processStops p ns xs).2 + (processStops p ns ys).2)) ∧
    (∀ (p : Provider) (si : StopRec) (ns : String) (l₁ l₂ : List Arrival),
        processArrivals p si ns (l₁ ++ l₂)
          = ((processArrivals p si ns l₁).1 ++ (processArrivals p si ns l₂).1,
             (processArrivals p si ns l₁).2 + (processArrivals p si ns l₂).2)) ∧
    get_bus_data providerC5 true "12:00:00" [stop101] = ([], 1) ∧
    (∀ (c : Cache) (now up : Nat),
        (update_cache_once providerC5 true "12:00:00" now up c).stats.successful_updates
            = c.stats.successful_updates + 1 ∧
        (update_cache_once providerC5 true "12:00:00" now up c).stats.failed_updates
            = c.stats.failed_updates) := by
  refine ⟨?_, ?_, ?_, ?_⟩
  · intro p ns xs ys
    simpa [processStops] using accumJoin_append (processStop p ns) xs ys
  · intro p si ns l₁ l₂
    simpa [processArrivals] using accumJoin_append (processArrival p si si.StopID ns) l₁ l₂
  · simp [get_bus_data, processStops, processStop, processArrivals, processArrival,
          processRoute, accumJoin, providerC5, providerC3, stop101, arrA10, routeA10]
  · intro c now up
    simp [update_cache_once, update_cache_cycle]

/-- C7 counterexample: when the discovery call raises on the provider side,
`get_stops` absorbs the failure (lines 74-76) and the cycle completes on
the SUCCESS path, so `failed_updates` is NOT incremented (it is
`successful_updates` that is) and the previous snapshot is NOT preserved
— the stops field is replaced by the empty list. -/
theorem discovery_failure_cycle_counts_success :
    ((update_cache_once providerFailDisc true "12:00:00" 200 60 cPrev).stats.failed_updates
        ≠ cPrev.stats.failed_updates + 1) ∧
    ((update_cache_once providerFailDisc true "12:00:00" 200 60 cPrev).stats.failed_updates
        = cPrev.stats.failed_updates) ∧
    ((update_cache_once providerFailDisc true "12:00:00" 200 60 cPrev).stats.successful_updates
        = cPrev.stats.successful_updates + 1) ∧
    ((update_cache_once providerFailDisc true "12:00:00" 200 60 cPrev).stops
        ≠ cPrev.stops) := by
  refine ⟨?_, ?_, ?_, ?_⟩ <;>
    simp [update_cache_once, update_cache_cycle, run_pipeline, get_stops,
          providerFailDisc, get_bus_data, processStops, accumJoin, cPrev]

/-- C7 (amended): when the discovery call fails on the provider side during
a refresh cycle, the failure is absorbed inside `get_stops`, the cycle
completes successfully (`successful_updates` increments,
`failed_updates` is unchanged) and the snapshot is REPLACED by an empty
one — stops and buses become `[]` and `last_update` advances — rather
than the previous snapshot staying visible. -/
theorem discovery_failure_successful_empty_cycle
    (p : Provider) (msg ns : String) (now up : Nat) (c : Cache)
    (h : p.getClosestStops DEFAULT_LAT DEFAULT_LNG = Except.error msg) :
    (update_cache_once p true ns now up c).stats.successful_updates
        = c.stats.successful_updates + 1 ∧
    (update_cache_once p true ns now up c).stats.failed_updates
        = c.stats.failed_updates ∧
    (update_cache_once p true ns now up c).stops = [] ∧
    (update_cache_once p true ns now up c).buses = [] ∧
    (update_cache_once p true ns now up c).last_update = now := by
  simp [update_cache_once, update_cache_cycle, run_pipeline, get_stops, h,
        get_bus_data, processStops, accumJoin]

/-- C7 amended-claim witness: the successful-empty-cycle theorem applied to
a provider whose discovery call raises, starting from a non-empty
previous snapshot. -/
theorem discovery_failure_successful_empty_cycle_witness :
    (providerFailDisc.getClosestStops DEFAULT_LAT DEFAULT_LNG
        = Except.error "network error") ∧
    ((update_cache_once providerFailDisc true "12:00:00" 200 60 cPrev).stats.successful_updates
        = cPrev.stats.successful_updates + 1 ∧
     (update_cache_once providerFailDisc true "12:00:00" 200 60 cPrev).stats.failed_updates
        = cPrev.stats.failed_updates ∧
     (update_cache_once providerFailDisc true "12:00:00" 200 60 cPrev).stops = [] ∧
     (update_cache_once providerFailDisc true "12:00:00" 200 60 cPrev).buses = [] ∧
     (update_cache_once providerFailDisc true "12:00:00" 200 60 cPrev).last_update = 200) :=
  ⟨rfl, discovery_failure_successful_empty_cycle providerFailDisc "network error" "12:00:00"
    200 60 cPrev rfl⟩

/-- C9: when discovery yields no stops, the join over the empty list yields
no sightings and no errors, and the cycle still completes on the success
path: `successful_updates` increments, `failed_updates` is unchanged and
the published snapshot holds the empty data. -/
theorem empty_discovery_join_empty_and_successful
    (p : Provider) (ns : String) (now up : Nat) (c : Cache)
    (h : p.getClosestStops DEFAULT_LAT DEFAULT_LNG = Except.ok []) :
    get_bus_data p true ns [] = ([], 0) ∧
    (update_cache_once p true ns now up c).stats.successful_updates
        = c.stats.successful_updates + 1 ∧
    (update_cache_once p true ns now up c).stats.failed_updates
        = c.stats.failed_updates ∧
    (update_cache_once p true ns now up c).stops = [] ∧
    (update_cache_once p true ns now up c).buses = [] := by
  simp [update_cache_once, update_cache_cycle, run_pipeline, get_stops, h,
        get_bus_data, processStops, accumJoin]

/-- C9 witness: the empty-discovery theorem applied to a provider that
returns an empty stop list. -/
theorem empty_discovery_join_empty_and_successful_witness :
    (providerEmptyDisc.getClosestStops DEFAULT_LAT DEFAULT_LNG = Except.ok []) ∧
    (get_bus_data providerEmptyDisc true "12:00:00" [] = ([], 0) ∧
     (update_cache_once providerEmptyDisc true "12:00:00" 200 60 cPrev).stats.successful_updates
        = cPrev.stats.successful_updates + 1 ∧
     (update_cache_once providerEmptyDisc true "12:00:00" 200 60 cPrev).stats.failed_updates
        = cPrev.stats.failed_updates ∧
     (update_cache_once providerEmptyDisc true "12:00:00" 200 60 cPrev).stops = [] ∧
     (update_cache_once providerEmptyDisc true "12:00:00" 200 60 cPrev).buses = []) :=
  ⟨rfl, empty_discovery_join_empty_and_successful providerEmptyDisc "12:00:00" 200 60 cPrev rfl⟩
